import Mathlib

/-!
# Verification of the ASMR spatial audio engine specification

Shallow embedding of `src/features/audio/SpatialAudioEngine.ts` and
`TriggerMapper` (`touchToAudioPosition`) over exact rational arithmetic.
Transcendental functions (`Math.sin`, `Math.exp`, `**`, `Math.PI`) are
abstracted as parameters of the synthesis generators, so every theorem about
them holds for any interpretation of those functions.
-/

namespace Asmr

/-- `SpatialAudioEngine.clamp(value, min, max)`:
`Math.min(Math.max(value, min), max)`. -/
def clamp (value lo hi : ℚ) : ℚ :=
  min (max value lo) hi

theorem clamp_le (value lo hi : ℚ) : clamp value lo hi ≤ hi :=
  min_le_right _ _

theorem le_clamp (value lo hi : ℚ) (h : lo ≤ hi) : lo ≤ clamp value lo hi :=
  le_min (le_max_right _ _) h

/-! ## Deterministic noise source (`createRandom`) -/

/-- One step of the 32-bit linear congruential generator:
`state = (1664525 * state + 1013904223) >>> 0`. -/
def lcgStep (state : ℕ) : ℕ :=
  (1664525 * state + 1013904223) % 4294967296

/-- Internal generator state after `n` calls; the initial state is the seed
masked to unsigned 32-bit (`seed >>> 0`). -/
def lcgState (seed : ℕ) : ℕ → ℕ
  | 0 => seed % 4294967296
  | n + 1 => lcgStep (lcgState seed n)

/-- `createRandom(seed)` as a stream: the value returned by the `n`-th call of
the closure, `state / 4294967296` after advancing the state. -/
def createRandom (seed : ℕ) (n : ℕ) : ℚ :=
  (lcgState seed (n + 1) : ℚ) / 4294967296

theorem lcgStep_lt (state : ℕ) : lcgStep state < 4294967296 :=
  Nat.mod_lt _ (by norm_num)

/-! ## Synthesis bank -/

/-- Abstract interpretation of the transcendental operations used by the
generators (`Math.sin`, `Math.exp`, `x ** y`, `Math.PI`). -/
structure SynthOps (α : Type) where
  sin : α → α
  exp : α → α
  rpow : α → α → α
  pi : α

/-- Mono buffer descriptor produced by
`context.createBuffer(1, frameCount, sampleRate)`. -/
structure BufferSpec where
  channelCount : ℕ
  frameCount : ℕ
  sampleRate : ℕ
  deriving DecidableEq, Repr

/-- `SpatialAudioEngine.createBuffer`: throws when `durationSeconds <= 0`, else
allocates a mono buffer of `Math.floor(sampleRate * durationSeconds)` frames. -/
def createBuffer (sampleRate : ℕ) (durationSeconds : ℚ) : Except String BufferSpec :=
  if durationSeconds ≤ 0 then
    Except.error "Duration must be greater than zero."
  else
    Except.ok ⟨1, (Int.floor ((sampleRate : ℚ) * durationSeconds)).toNat, sampleRate⟩

/-- Generates `count` samples starting at `index`, threading the generator
state `st` through `step` exactly as the JS per-sample loop does. -/
def genSamples {α : Type} (step : ℕ → ℕ → α × ℕ) : ℕ → ℕ → ℕ → List α
  | 0, _, _ => []
  | count + 1, index, st =>
    let out := step index st
    out.1 :: genSamples step count (index + 1) out.2

variable {α : Type}

/-- Loop body of `renderWhisperBuffer`. -/
def whisperStep [LinearOrderedField α] (ops : SynthOps α) (frames : ℕ)
    (index st : ℕ) : α × ℕ :=
  let st' := lcgStep st
  let r : ℚ := (st' : ℚ) / 4294967296
  let progress : ℚ := (index : ℚ) / (frames : ℚ)
  let envelope := ops.rpow (ops.sin (ops.pi * ((progress : ℚ) : α))) ((0.7 : ℚ) : α)
  let brightNoise : α := ((r : ℚ) : α) * 2 - 1
  let filtered := brightNoise * ((0.5 : ℚ) : α)
    + ops.sin ((((index : ℚ) * 0.002 : ℚ)) : α) * ((0.16 : ℚ) : α)
  (filtered * envelope * ((0.32 : ℚ) : α), st')

/-- Loop body of `renderTapBuffer`. -/
def tapStep [LinearOrderedField α] (ops : SynthOps α) (sampleRate : ℕ)
    (index st : ℕ) : α × ℕ :=
  let st' := lcgStep st
  let r : ℚ := (st' : ℚ) / 4294967296
  let time : ℚ := (index : ℚ) / (sampleRate : ℚ)
  let decay := ops.exp (((-(time * 24) : ℚ)) : α)
  let click := ops.sin (((time : ℚ) : α) * 2 * ops.pi * 270) * decay
  let noise := (((r : ℚ) : α) * 2 - 1) * decay * ((0.5 : ℚ) : α)
  ((click * ((0.8 : ℚ) : α) + noise * ((0.4 : ℚ) : α)) * ((0.75 : ℚ) : α), st')

/-- Loop body of `renderScratchBuffer`. -/
def scratchStep [LinearOrderedField α] (ops : SynthOps α) (sampleRate frames : ℕ)
    (index st : ℕ) : α × ℕ :=
  let st' := lcgStep st
  let r : ℚ := (st' : ℚ) / 4294967296
  let time : ℚ := (index : ℚ) / (sampleRate : ℚ)
  let gate : α :=
    if ((0.35 : ℚ) : α) < ops.sin (((time : ℚ) : α) * 2 * ops.pi * 18) then 1
    else ((0.25 : ℚ) : α)
  let bite := ops.sin (((time : ℚ) : α) * 2 * ops.pi * 820)
  let noise := (((r : ℚ) : α) * 2 - 1) * ((0.8 : ℚ) : α)
  let body := (bite * ((0.2 : ℚ) : α) + noise * ((0.8 : ℚ) : α)) * gate
  let fade : ℚ := 1 - (index : ℚ) / (frames : ℚ)
  (body * ((fade : ℚ) : α) * ((0.24 : ℚ) : α), st')

/-- Loop body of `renderBrushBuffer`. -/
def brushStep [LinearOrderedField α] (ops : SynthOps α) (sampleRate : ℕ)
    (index st : ℕ) : α × ℕ :=
  let st' := lcgStep st
  let r : ℚ := (st' : ℚ) / 4294967296
  let time : ℚ := (index : ℚ) / (sampleRate : ℚ)
  let sweep := (ops.sin (((time : ℚ) : α) * 2 * ops.pi * ((3.5 : ℚ) : α)) + 1) * ((0.5 : ℚ) : α)
  let airyNoise := (((r : ℚ) : α) * 2 - 1) * ((0.5 : ℚ) : α)
  let shimmer := ops.sin (((time : ℚ) : α) * 2 * ops.pi * 210) * ((0.1 : ℚ) : α)
  ((airyNoise * (((0.2 : ℚ) : α) + sweep * ((0.8 : ℚ) : α)) + shimmer) * ((0.3 : ℚ) : α), st')

/-- Loop body of `renderWaterBuffer`. -/
def waterStep [LinearOrderedField α] (ops : SynthOps α) (sampleRate : ℕ)
    (index st : ℕ) : α × ℕ :=
  let st' := lcgStep st
  let r : ℚ := (st' : ℚ) / 4294967296
  let time : ℚ := (index : ℚ) / (sampleRate : ℚ)
  let dropTone := ops.sin (((time : ℚ) : α) * 2 * ops.pi * (((190 - time * 90 : ℚ)) : α))
  let body := ops.exp (((-(time * 6.5) : ℚ)) : α)
  let sparkle := (((r : ℚ) : α) * 2 - 1) * ops.exp (((-(time * 14) : ℚ)) : α) * ((0.4 : ℚ) : α)
  ((dropTone * body + sparkle) * ((0.44 : ℚ) : α), st')

/-- Loop body of `renderEarCleaningBuffer`. -/
def earCleaningStep [LinearOrderedField α] (ops : SynthOps α) (sampleRate : ℕ)
    (index st : ℕ) : α × ℕ :=
  let st' := lcgStep st
  let r : ℚ := (st' : ℚ) / 4294967296
  let time : ℚ := (index : ℚ) / (sampleRate : ℚ)
  let microPattern := ops.sin (((time : ℚ) : α) * 2 * ops.pi * 36) * ((0.28 : ℚ) : α)
  let fuzzyNoise := (((r : ℚ) : α) * 2 - 1) * ((0.3 : ℚ) : α)
  let body := ops.exp (((-(time * 1.4) : ℚ)) : α)
  let gate : α :=
    if (0 : α) < ops.sin (((time : ℚ) : α) * 2 * ops.pi * 7) then 1
    else ((0.55 : ℚ) : α)
  ((microPattern + fuzzyNoise) * body * gate * ((0.24 : ℚ) : α), st')

/-- JavaScript `String.prototype.includes` on character lists: does the
pattern occur as a contiguous substring? -/
def charsMatchAt : List Char → List Char → Bool
  | [], _ => true
  | _ :: _, [] => false
  | p :: ps, c :: cs => p == c && charsMatchAt ps cs

def charsInclude (pat : List Char) : List Char → Bool
  | [] => pat.isEmpty
  | c :: cs => charsMatchAt pat (c :: cs) || charsInclude pat cs

def stringIncludes (s pat : String) : Bool :=
  charsInclude pat.data s.data

/-- Loop body of `renderAmbientBuffer`; the thematic branches consume extra
generator calls, so the state is threaded per branch. -/
def ambientStep [LinearOrderedField α] (ops : SynthOps α) (sampleRate : ℕ)
    (soundId : String) (index st : ℕ) : α × ℕ :=
  let st1 := lcgStep st
  let baseNoise : α := (((st1 : ℚ) / 4294967296 : ℚ) : α) * 2 - 1
  let time : ℚ := (index : ℚ) / (sampleRate : ℚ)
  let lowDrift := ops.sin (((time : ℚ) : α) * 2 * ops.pi * ((0.24 : ℚ) : α)) * ((0.13 : ℚ) : α)
  let midDrift := ops.sin (((time : ℚ) : α) * 2 * ops.pi * ((0.53 : ℚ) : α)) * ((0.09 : ℚ) : α)
  let texture0 := baseNoise * ((0.11 : ℚ) : α) + lowDrift + midDrift
  let rainOut :=
    if stringIncludes soundId "rain" then
      let st2 := lcgStep st1
      let burst : α :=
        if ((0.82 : ℚ) : α) < ops.sin (((time : ℚ) : α) * 2 * ops.pi * 19) then ((0.28 : ℚ) : α)
        else 0
      (texture0 + burst * ((((st2 : ℚ) / 4294967296 : ℚ) : α) * ((0.6 : ℚ) : α)), st2)
    else (texture0, st1)
  let fireOut :=
    if stringIncludes soundId "fire" then
      let st3 := lcgStep rainOut.2
      let crackle : α :=
        if ((0.74 : ℚ) : α) < ops.sin (((time : ℚ) : α) * 2 * ops.pi * ((7.5 : ℚ) : α)) then 1
        else ((0.42 : ℚ) : α)
      (rainOut.1 + crackle * ((((st3 : ℚ) / 4294967296 : ℚ) : α) * ((0.16 : ℚ) : α)), st3)
    else rainOut
  let texture1 :=
    if stringIncludes soundId "forest" then
      fireOut.1 + ops.sin (((time : ℚ) : α) * 2 * ops.pi * ((2.6 : ℚ) : α)) * ((0.07 : ℚ) : α)
    else fireOut.1
  let texture2 :=
    if stringIncludes soundId "night" then
      texture1 + ops.sin (((time : ℚ) : α) * 2 * ops.pi * ((1.1 : ℚ) : α)) * ((0.05 : ℚ) : α)
    else texture1
  (texture2 * ((0.34 : ℚ) : α), fireOut.2)

/-! ## Sound catalog data model -/

inductive SoundCategory where
  | whisper
  | tapping
  | scratching
  | brushing
  | water
  | ear_cleaning
  | ambient
  | user
  deriving DecidableEq, Repr

inductive GestureType where
  | tap
  | drag
  deriving DecidableEq, Repr

/-- The fields of `SoundDefinition` the audio engine reads. A pre-supplied
sample (`audioBuffer?: AudioBuffer`) is identified by an opaque buffer id. -/
structure SoundDefinition where
  id : String
  category : SoundCategory
  defaultGain : ℚ
  defaultDurationSeconds : ℚ
  loop : Bool
  seed : ℕ
  audioBuffer : Option ℕ
  deriving DecidableEq, Repr

/-- `renderWhisperBuffer`. -/
def renderWhisperBuffer [LinearOrderedField α] (ops : SynthOps α) (sampleRate : ℕ)
    (durationSeconds : ℚ) (seed : ℕ) : Except String (BufferSpec × List α) :=
  (createBuffer sampleRate durationSeconds).map fun spec =>
    (spec, genSamples (whisperStep ops spec.frameCount) spec.frameCount 0 (seed % 4294967296))

/-- `renderTapBuffer`. -/
def renderTapBuffer [LinearOrderedField α] (ops : SynthOps α) (sampleRate : ℕ)
    (durationSeconds : ℚ) (seed : ℕ) : Except String (BufferSpec × List α) :=
  (createBuffer sampleRate durationSeconds).map fun spec =>
    (spec, genSamples (tapStep ops sampleRate) spec.frameCount 0 (seed % 4294967296))

/-- `renderScratchBuffer`. -/
def renderScratchBuffer [LinearOrderedField α] (ops : SynthOps α) (sampleRate : ℕ)
    (durationSeconds : ℚ) (seed : ℕ) : Except String (BufferSpec × List α) :=
  (createBuffer sampleRate durationSeconds).map fun spec =>
    (spec, genSamples (scratchStep ops sampleRate spec.frameCount) spec.frameCount 0 (seed % 4294967296))

/-- `renderBrushBuffer`. -/
def renderBrushBuffer [LinearOrderedField α] (ops : SynthOps α) (sampleRate : ℕ)
    (durationSeconds : ℚ) (seed : ℕ) : Except String (BufferSpec × List α) :=
  (createBuffer sampleRate durationSeconds).map fun spec =>
    (spec, genSamples (brushStep ops sampleRate) spec.frameCount 0 (seed % 4294967296))

/-- `renderWaterBuffer`. -/
def renderWaterBuffer [LinearOrderedField α] (ops : SynthOps α) (sampleRate : ℕ)
    (durationSeconds : ℚ) (seed : ℕ) : Except String (BufferSpec × List α) :=
  (createBuffer sampleRate durationSeconds).map fun spec =>
    (spec, genSamples (waterStep ops sampleRate) spec.frameCount 0 (seed % 4294967296))

/-- `renderEarCleaningBuffer`. -/
def renderEarCleaningBuffer [LinearOrderedField α] (ops : SynthOps α) (sampleRate : ℕ)
    (durationSeconds : ℚ) (seed : ℕ) : Except String (BufferSpec × List α) :=
  (createBuffer sampleRate durationSeconds).map fun spec =>
    (spec, genSamples (earCleaningStep ops sampleRate) spec.frameCount 0 (seed % 4294967296))

/-- `renderAmbientBuffer`. -/
def renderAmbientBuffer [LinearOrderedField α] (ops : SynthOps α) (sampleRate : ℕ)
    (sound : SoundDefinition) : Except String (BufferSpec × List α) :=
  (createBuffer sampleRate sound.defaultDurationSeconds).map fun spec =>
    (spec, genSamples (ambientStep ops sampleRate sound.id) spec.frameCount 0 (sound.seed % 4294967296))

/-- `renderSynthBuffer`: dispatch on category; the `user` category falls back
to the whisper generator. -/
def renderSynthBuffer [LinearOrderedField α] (ops : SynthOps α) (sampleRate : ℕ)
    (sound : SoundDefinition) : Except String (BufferSpec × List α) :=
  match sound.category with
  | SoundCategory.whisper =>
    renderWhisperBuffer ops sampleRate sound.defaultDurationSeconds sound.seed
  | SoundCategory.tapping =>
    renderTapBuffer ops sampleRate sound.defaultDurationSeconds sound.seed
  | SoundCategory.scratching =>
    renderScratchBuffer ops sampleRate sound.defaultDurationSeconds sound.seed
  | SoundCategory.brushing =>
    renderBrushBuffer ops sampleRate sound.defaultDurationSeconds sound.seed
  | SoundCategory.water =>
    renderWaterBuffer ops sampleRate sound.defaultDurationSeconds sound.seed
  | SoundCategory.ear_cleaning =>
    renderEarCleaningBuffer ops sampleRate sound.defaultDurationSeconds sound.seed
  | SoundCategory.ambient =>
    renderAmbientBuffer ops sampleRate sound
  | SoundCategory.user =>
    renderWhisperBuffer ops sampleRate sound.defaultDurationSeconds sound.seed

/-! ## Gain / rate modulation -/

/-- `computeGain(baseGain, intensity, gesture, strokeSpeed)`. -/
def computeGain (baseGain intensity : ℚ) (gesture : GestureType) (strokeSpeed : ℚ) : ℚ :=
  let gestureScale : ℚ := if gesture = GestureType.drag then 0.7 else 1
  let speedScale : ℚ :=
    if gesture = GestureType.drag then clamp (0.6 + strokeSpeed / 820) 0.6 1.45 else 1
  clamp (baseGain * intensity * gestureScale * speedScale) 0.01 1.2

/-- `computePlaybackRate(category, gesture, strokeSpeed)`. -/
def computePlaybackRate (category : SoundCategory) (gesture : GestureType)
    (strokeSpeed : ℚ) : ℚ :=
  if gesture = GestureType.drag then
    let speedTerm := clamp (strokeSpeed / 700) 0 1.3
    if category = SoundCategory.ear_cleaning then 0.82 + speedTerm * 0.22
    else if category = SoundCategory.water then 0.88 + speedTerm * 0.2
    else 0.9 + speedTerm * 0.22
  else if category = SoundCategory.tapping then 1.08
  else 1

/-- `computePositionSmoothing(strokeSpeed)`. -/
def computePositionSmoothing (strokeSpeed : ℚ) : ℚ :=
  let normalized := clamp (strokeSpeed / 700) 0 1.3
  clamp (0.072 - normalized * 0.04) 0.018 0.072

/-! ## Spatial positioning pipeline (`TriggerMapper`) -/

/-- `three.Vector3` restricted to the operations the mapper uses. -/
structure Vec3 where
  x : ℚ
  y : ℚ
  z : ℚ
  deriving DecidableEq, Repr

/-- `three.Quaternion` components. -/
structure Quat where
  x : ℚ
  y : ℚ
  z : ℚ
  w : ℚ
  deriving DecidableEq, Repr

/-- `Vector3.sub`. -/
def vsub (a b : Vec3) : Vec3 :=
  ⟨a.x - b.x, a.y - b.y, a.z - b.z⟩

/-- `Quaternion.invert()`: the conjugate (three.js assumes unit length). -/
def quatInvert (q : Quat) : Quat :=
  ⟨-q.x, -q.y, -q.z, q.w⟩

/-- `Quaternion.multiplyQuaternions(a, b)` (Hamilton product, three.js layout). -/
def quatMul (a b : Quat) : Quat :=
  ⟨a.x * b.w + a.w * b.x + a.y * b.z - a.z * b.y,
   a.y * b.w + a.w * b.y + a.z * b.x - a.x * b.z,
   a.z * b.w + a.w * b.z + a.x * b.y - a.y * b.x,
   a.w * b.w - a.x * b.x - a.y * b.y - a.z * b.z⟩

/-- `Quaternion.lengthSq()`. -/
def quatNormSq (q : Quat) : ℚ :=
  q.x * q.x + q.y * q.y + q.z * q.z + q.w * q.w

/-- The identity quaternion `(0, 0, 0, 1)`. -/
def quatOne : Quat :=
  ⟨0, 0, 0, 1⟩

/-- `Vector3.applyQuaternion(q)`, translated from the three.js source
(`t = 2 cross(q.xyz, v); v + q.w t + cross(q.xyz, t)`). -/
def applyQuaternion (v : Vec3) (q : Quat) : Vec3 :=
  let tx := 2 * (q.y * v.z - q.z * v.y)
  let ty := 2 * (q.z * v.x - q.x * v.z)
  let tz := 2 * (q.x * v.y - q.y * v.x)
  ⟨v.x + q.w * tx + q.y * tz - q.z * ty,
   v.y + q.w * ty + q.z * tx - q.x * tz,
   v.z + q.w * tz + q.x * ty - q.y * tx⟩

/-- `AUDIO_SCALE` from `core/constants`. -/
def AUDIO_SCALE : ℚ := 1.35

/-- `AudioPosition`. -/
structure AudioPosition where
  x : ℚ
  y : ℚ
  z : ℚ
  deriving DecidableEq, Repr

/-- `touchToAudioPosition(intersectPoint, headCenter, headQuaternion)`:
subtract the head center, rotate by the inverted head quaternion, scale by
`AUDIO_SCALE` and invert the x axis for the face-to-face presentation. -/
def touchToAudioPosition (intersectPoint headCenter : Vec3) (headQuaternion : Quat) :
    AudioPosition :=
  let relativeWorld := vsub intersectPoint headCenter
  let inverseHeadRotation := quatInvert headQuaternion
  let relativeLocal := applyQuaternion relativeWorld inverseHeadRotation
  ⟨-relativeLocal.x * AUDIO_SCALE,
   relativeLocal.y * AUDIO_SCALE,
   relativeLocal.z * AUDIO_SCALE⟩

/-- Modelled from the spec wording of §4.3: the head-local coordinates of the
hit point, "subtract center, apply inverse of head's world rotation". -/
def headLocalPoint (intersectPoint headCenter : Vec3) (headQuaternion : Quat) : Vec3 :=
  applyQuaternion (vsub intersectPoint headCenter) (quatInvert headQuaternion)

/-! ## Session manager state machine

Web Audio node-graph mutations are recorded as an explicit event log; nodes
and buffers are opaque ids minted in creation order, which models JavaScript
object identity. -/

inductive AudioEvent where
  | setBuffer (node buffer : ℕ)
  | setLoop (node : ℕ) (loopFlag : Bool)
  | setRateValue (node : ℕ) (value : ℚ)
  | setRateTarget (node : ℕ) (target startTime timeConstant : ℚ)
  | setGainValue (node : ℕ) (value : ℚ)
  | setGainTarget (node : ℕ) (target startTime timeConstant : ℚ)
  | setPanningModel (node : ℕ) (model : String)
  | setDistanceModel (node : ℕ) (model : String)
  | setRefDistance (node : ℕ) (value : ℚ)
  | setMaxDistance (node : ℕ) (value : ℚ)
  | setRolloffFactor (node : ℕ) (value : ℚ)
  | setPannerXTarget (node : ℕ) (target startTime timeConstant : ℚ)
  | setPannerYTarget (node : ℕ) (target startTime timeConstant : ℚ)
  | setPannerZTarget (node : ℕ) (target startTime timeConstant : ℚ)
  | setPannerXValue (node : ℕ) (value : ℚ)
  | setPannerYValue (node : ℕ) (value : ℚ)
  | setPannerZValue (node : ℕ) (value : ℚ)
  | setFilterType (node : ℕ) (filterType : String)
  | setFilterFrequency (node : ℕ) (value : ℚ)
  | setFilterQ (node : ℕ) (value : ℚ)
  | connect (source target : ℕ)
  | startSource (node : ℕ) (time : ℚ)
  | stopSource (node : ℕ) (time : ℚ)
  | onEndedDisconnect (nodes : List ℕ)
  deriving DecidableEq, Repr

/-- `ActiveStrokeSession`. -/
structure StrokeSessionState where
  soundId : String
  sourceNode : ℕ
  gainNode : ℕ
  pannerNode : ℕ
  deriving DecidableEq, Repr

/-- `ActiveBgmSession`. -/
structure BgmSessionState where
  soundId : String
  sourceNode : ℕ
  gainNode : ℕ
  filterNode : ℕ
  deriving DecidableEq, Repr

/-- Mutable fields of `SpatialAudioEngine`, plus instrumentation:
`synthCount` counts `renderSynthBuffer` invocations and `events` logs node
mutations in chronological order. -/
structure EngineState where
  contextInitialized : Bool
  masterNode : Option ℕ
  currentTime : ℚ
  nextNodeId : ℕ
  nextBufferId : ℕ
  bufferCache : List (String × ℕ)
  activeStrokeSession : Option StrokeSessionState
  activeBgmSession : Option BgmSessionState
  synthCount : ℕ
  events : List AudioEvent
  deriving DecidableEq, Repr

/-- Freshly constructed engine (`new SpatialAudioEngine()`). -/
def initialEngine : EngineState :=
  ⟨false, none, 0, 0, 0, [], none, none, 0, []⟩

/-- `Map.get` on the buffer cache. -/
def cacheLookup (soundId : String) : List (String × ℕ) → Option ℕ
  | [] => none
  | (key, value) :: rest => if key = soundId then some value else cacheLookup soundId rest

/-- `getOrCreateContext` / `ensureMixerReady`: lazily create the context and
the master gain node. -/
def ensureContext (s : EngineState) : EngineState :=
  if s.contextInitialized then s
  else
    { s with
      contextInitialized := true
      masterNode := some s.nextNodeId
      nextNodeId := s.nextNodeId + 1 }

def masterNodeId (s : EngineState) : ℕ :=
  s.masterNode.getD 0

/-- `getOrCreateBuffer`: pre-supplied buffers are returned as-is; otherwise
the cache is consulted and synthesis runs only on a miss. -/
def getOrCreateBuffer (s : EngineState) (sound : SoundDefinition) : ℕ × EngineState :=
  match sound.audioBuffer with
  | some b => (b, s)
  | none =>
    match cacheLookup sound.id s.bufferCache with
    | some b => (b, s)
    | none =>
      let b := s.nextBufferId
      (b, { s with
              nextBufferId := s.nextBufferId + 1
              bufferCache := s.bufferCache ++ [(sound.id, b)]
              synthCount := s.synthCount + 1 })

/-- `applyPannerValues(pannerNode, position, currentTime, smoothingTime)`. -/
def applyPannerValues (pannerNode : ℕ) (position : AudioPosition)
    (currentTime smoothingTime : ℚ) : List AudioEvent :=
  [AudioEvent.setPanningModel pannerNode "HRTF",
   AudioEvent.setDistanceModel pannerNode "inverse",
   AudioEvent.setRefDistance pannerNode 1,
   AudioEvent.setMaxDistance pannerNode 8,
   AudioEvent.setRolloffFactor pannerNode 1,
   AudioEvent.setPannerXTarget pannerNode (clamp position.x (-2.5) 2.5) currentTime smoothingTime,
   AudioEvent.setPannerYTarget pannerNode (clamp position.y (-1.6) 1.6) currentTime smoothingTime,
   AudioEvent.setPannerZTarget pannerNode (clamp position.z (-2.5) 2.5) currentTime smoothingTime]

/-- `endStroke()`. -/
def endStroke (s : EngineState) : EngineState :=
  match s.activeStrokeSession with
  | none => s
  | some sess =>
    if s.contextInitialized then
      { s with
        events := s.events ++
          [AudioEvent.setGainTarget sess.gainNode 0.0001 s.currentTime 0.05,
           AudioEvent.stopSource sess.sourceNode (s.currentTime + 0.22),
           AudioEvent.onEndedDisconnect [sess.sourceNode, sess.gainNode, sess.pannerNode]]
        activeStrokeSession := none }
    else s

/-- Session-creation tail of `getOrCreateStrokeSession`. -/
def strokeSessionCreate (s : EngineState) (sound : SoundDefinition) :
    StrokeSessionState × EngineState :=
  let br := getOrCreateBuffer s sound
  let s1 := br.2
  let src := s1.nextNodeId
  let gain := s1.nextNodeId + 1
  let panner := s1.nextNodeId + 2
  let sess : StrokeSessionState := ⟨sound.id, src, gain, panner⟩
  let evs :=
    [AudioEvent.setBuffer src br.1,
     AudioEvent.setLoop src true,
     AudioEvent.setRateValue src 0.92,
     AudioEvent.setGainValue gain 0.0001]
    ++ applyPannerValues panner ⟨0, 0, 0⟩ s1.currentTime 0.001
    ++ [AudioEvent.connect src gain,
        AudioEvent.connect gain panner,
        AudioEvent.connect panner (masterNodeId s1),
        AudioEvent.startSource src (s1.currentTime + 0.003)]
  (sess, { s1 with
             nextNodeId := s1.nextNodeId + 3
             events := s1.events ++ evs
             activeStrokeSession := some sess })

/-- `getOrCreateStrokeSession(context, sound)`. -/
def getOrCreateStrokeSession (s : EngineState) (sound : SoundDefinition) :
    StrokeSessionState × EngineState :=
  match s.activeStrokeSession with
  | some sess =>
    if sess.soundId = sound.id then (sess, s)
    else strokeSessionCreate (endStroke s) sound
  | none => strokeSessionCreate (endStroke s) sound

/-- The fields of `PlaybackRequest`. -/
structure PlaybackRequest where
  sound : SoundDefinition
  position : AudioPosition
  intensity : ℚ
  gesture : GestureType
  strokeSpeed : ℚ
  deriving DecidableEq, Repr

/-- `updateStroke(request)`. -/
def updateStroke (s0 : EngineState) (request : PlaybackRequest) : EngineState :=
  let s1 := ensureContext s0
  let sr := getOrCreateStrokeSession s1 request.sound
  let sess := sr.1
  let s2 := sr.2
  let now := s2.currentTime
  let positionSmoothing := computePositionSmoothing request.strokeSpeed
  let targetGain :=
    computeGain request.sound.defaultGain request.intensity GestureType.drag request.strokeSpeed
  let targetRate :=
    computePlaybackRate request.sound.category GestureType.drag request.strokeSpeed
  { s2 with
    events := s2.events
      ++ applyPannerValues sess.pannerNode request.position now positionSmoothing
      ++ [AudioEvent.setGainTarget sess.gainNode targetGain now 0.028,
          AudioEvent.setRateTarget sess.sourceNode targetRate now 0.04] }

/-- `play(request)` (one-shot; no persistent session). -/
def play (s0 : EngineState) (request : PlaybackRequest) : EngineState :=
  let s1 := ensureContext s0
  let br := getOrCreateBuffer s1 request.sound
  let s2 := br.2
  let src := s2.nextNodeId
  let gain := s2.nextNodeId + 1
  let panner := s2.nextNodeId + 2
  let evs :=
    [AudioEvent.setBuffer src br.1,
     AudioEvent.setLoop src request.sound.loop,
     AudioEvent.setRateValue src
       (computePlaybackRate request.sound.category request.gesture request.strokeSpeed),
     AudioEvent.setGainValue gain
       (computeGain request.sound.defaultGain request.intensity request.gesture request.strokeSpeed)]
    ++ applyPannerValues panner request.position s2.currentTime 0.001
    ++ [AudioEvent.connect src gain,
        AudioEvent.connect gain panner,
        AudioEvent.connect panner (masterNodeId s2),
        AudioEvent.startSource src (s2.currentTime + 0.004)]
    ++ (if request.sound.loop then []
        else [AudioEvent.stopSource src (s2.currentTime + request.sound.defaultDurationSeconds)])
  { s2 with
    nextNodeId := s2.nextNodeId + 3
    events := s2.events ++ evs }

/-- `stopAmbientTrack()`. -/
def stopAmbientTrack (s : EngineState) : EngineState :=
  match s.activeBgmSession with
  | none => s
  | some bgm =>
    if s.contextInitialized then
      { s with
        events := s.events ++
          [AudioEvent.setGainTarget bgm.gainNode 0.0001 s.currentTime 0.1,
           AudioEvent.stopSource bgm.sourceNode (s.currentTime + 0.4),
           AudioEvent.onEndedDisconnect [bgm.sourceNode, bgm.gainNode, bgm.filterNode]]
        activeBgmSession := none }
    else s

/-- Session-creation tail of `setAmbientTrack`. -/
def ambientCreate (s : EngineState) (sound : SoundDefinition) (safeGain : ℚ) : EngineState :=
  let br := getOrCreateBuffer s sound
  let s1 := br.2
  let src := s1.nextNodeId
  let gain := s1.nextNodeId + 1
  let filterNode := s1.nextNodeId + 2
  let evs :=
    [AudioEvent.setBuffer src br.1,
     AudioEvent.setLoop src true,
     AudioEvent.setRateValue src 1,
     AudioEvent.setFilterType filterNode "lowpass",
     AudioEvent.setFilterFrequency filterNode 2800,
     AudioEvent.setFilterQ filterNode 0.7,
     AudioEvent.setGainValue gain 0.0001,
     AudioEvent.connect src filterNode,
     AudioEvent.connect filterNode gain,
     AudioEvent.connect gain (masterNodeId s1),
     AudioEvent.startSource src (s1.currentTime + 0.005),
     AudioEvent.setGainTarget gain safeGain s1.currentTime 0.15]
  { s1 with
    nextNodeId := s1.nextNodeId + 3
    events := s1.events ++ evs
    activeBgmSession := some ⟨sound.id, src, gain, filterNode⟩ }

/-- `setAmbientTrack(sound, gainValue)`. -/
def setAmbientTrack (s0 : EngineState) (sound : Option SoundDefinition) (gainValue : ℚ) :
    EngineState :=
  match sound with
  | none => stopAmbientTrack s0
  | some snd =>
    let s1 := ensureContext s0
    let safeGain := clamp gainValue 0 1.2
    match s1.activeBgmSession with
    | some bgm =>
      if bgm.soundId = snd.id then
        { s1 with
          events := s1.events ++
            [AudioEvent.setGainTarget bgm.gainNode safeGain s1.currentTime 0.08] }
      else ambientCreate (stopAmbientTrack s1) snd safeGain
    | none => ambientCreate (stopAmbientTrack s1) snd safeGain

/-- `dispose()`. -/
def dispose (s : EngineState) : EngineState :=
  let s1 := stopAmbientTrack (endStroke s)
  { s1 with
    bufferCache := []
    contextInitialized := false
    masterNode := none }

/-- The public mutating operations of the engine facade. -/
inductive EngineOp where
  | play (request : PlaybackRequest)
  | updateStroke (request : PlaybackRequest)
  | endStroke
  | setAmbientTrack (sound : Option SoundDefinition) (gainValue : ℚ)
  | stopAmbientTrack
  | dispose
  deriving DecidableEq, Repr

def applyOp (s : EngineState) : EngineOp → EngineState
  | EngineOp.play request => play s request
  | EngineOp.updateStroke request => updateStroke s request
  | EngineOp.endStroke => endStroke s
  | EngineOp.setAmbientTrack sound gainValue => setAmbientTrack s sound gainValue
  | EngineOp.stopAmbientTrack => stopAmbientTrack s
  | EngineOp.dispose => dispose s

def run (s : EngineState) : List EngineOp → EngineState
  | [] => s
  | op :: rest => run (applyOp s op) rest

/-- Number of active stroke sessions held by the engine. -/
def strokeSessionCount (s : EngineState) : ℕ :=
  match s.activeStrokeSession with
  | none => 0
  | some _ => 1

/-! ## Theorems -/

/-- C1: synthesis is deterministic: `renderSynthBuffer` is a pure function of
(category, seed, duration) for every interpretation of the transcendental
operations; `createRandom` outputs always lie in `[0, 1)` and the state
sequence is exactly the 32-bit LCG recurrence
`state' = (1664525 * state + 1013904223) mod 2^32` started from the seed
masked to unsigned 32-bit. -/
theorem C1_synthesis_deterministic :
    (∀ (α : Type) [LinearOrderedField α] (ops : SynthOps α) (sampleRate : ℕ)
        (sound : SoundDefinition),
        renderSynthBuffer ops sampleRate sound = renderSynthBuffer ops sampleRate sound)
    ∧ (∀ seed n, 0 ≤ createRandom seed n ∧ createRandom seed n < 1)
    ∧ (∀ seed, lcgState seed 0 = seed % 4294967296)
    ∧ (∀ seed n, lcgState seed (n + 1) = (1664525 * lcgState seed n + 1013904223) % 4294967296)
    ∧ (∀ seed n, createRandom seed n = (lcgState seed (n + 1) : ℚ) / 4294967296) := by
  refine ⟨fun α _ ops sampleRate sound => rfl, fun seed n => ⟨?_, ?_⟩,
    fun seed => rfl, fun seed n => rfl, fun seed n => rfl⟩
  · exact div_nonneg (Nat.cast_nonneg _) (by norm_num)
  · rw [createRandom, div_lt_one (by norm_num)]
    have h : lcgState seed (n + 1) < 4294967296 := lcgStep_lt (lcgState seed n)
    exact_mod_cast h

/-- C2: `touchToAudioPosition` maps the hit point to head-local coordinates
(subtract the center, apply the inverted head rotation), then scales every
axis by 1.35 and inverts the sign of x; local x = +1 yields audio x = −1.35,
and for a unit quaternion the applied inversion is the true quaternion
inverse. -/
theorem C2_touch_mirroring (p c : Vec3) (q : Quat) :
    touchToAudioPosition p c q =
      ⟨-(headLocalPoint p c q).x * 1.35,
       (headLocalPoint p c q).y * 1.35,
       (headLocalPoint p c q).z * 1.35⟩
    ∧ ((headLocalPoint p c q).x = 1 → (touchToAudioPosition p c q).x = -1.35)
    ∧ (quatNormSq q = 1 → quatMul q (quatInvert q) = quatOne) := by
  refine ⟨rfl, ?_, ?_⟩
  · intro h
    show -(headLocalPoint p c q).x * AUDIO_SCALE = -1.35
    rw [h, AUDIO_SCALE]
    norm_num
  · intro h
    simp only [quatMul, quatInvert, quatOne, Quat.mk.injEq]
    refine ⟨by ring, by ring, by ring, ?_⟩
    rw [quatNormSq] at h
    linear_combination h

theorem C2_touch_mirroring_witness :
    (headLocalPoint ⟨1, 0, 0⟩ ⟨0, 0, 0⟩ ⟨0, 0, 0, 1⟩).x = 1
    ∧ (touchToAudioPosition ⟨1, 0, 0⟩ ⟨0, 0, 0⟩ ⟨0, 0, 0, 1⟩).x = -1.35
    ∧ quatNormSq ⟨0, 0, 0, 1⟩ = 1
    ∧ quatMul ⟨0, 0, 0, 1⟩ (quatInvert ⟨0, 0, 0, 1⟩) = quatOne := by
  have h1 : (headLocalPoint ⟨1, 0, 0⟩ ⟨0, 0, 0⟩ ⟨0, 0, 0, 1⟩).x = 1 := by
    norm_num [headLocalPoint, applyQuaternion, vsub, quatInvert]
  have h2 : quatNormSq (⟨0, 0, 0, 1⟩ : Quat) = 1 := by
    norm_num [quatNormSq]
  exact ⟨h1, (C2_touch_mirroring ⟨1, 0, 0⟩ ⟨0, 0, 0⟩ ⟨0, 0, 0, 1⟩).2.1 h1, h2,
    (C2_touch_mirroring ⟨1, 0, 0⟩ ⟨0, 0, 0⟩ ⟨0, 0, 0, 1⟩).2.2 h2⟩

/-- C3: `computeGain` returns `clamp(baseGain*intensity, 0.01, 1.2)` for taps,
`clamp(baseGain*intensity*0.7*clamp(0.6 + strokeSpeed/820, 0.6, 1.45), 0.01, 1.2)`
for drags; the result always lies in `[0.01, 1.2]`, and
`computeGain(0.36, 1.0, tap, _) = 0.36`. -/
theorem C3_computeGain_contract (baseGain intensity strokeSpeed : ℚ) :
    computeGain baseGain intensity GestureType.tap strokeSpeed
      = clamp (baseGain * intensity) 0.01 1.2
    ∧ computeGain baseGain intensity GestureType.drag strokeSpeed
      = clamp (baseGain * intensity * 0.7 * clamp (0.6 + strokeSpeed / 820) 0.6 1.45) 0.01 1.2
    ∧ (∀ gesture, 0.01 ≤ computeGain baseGain intensity gesture strokeSpeed
        ∧ computeGain baseGain intensity gesture strokeSpeed ≤ 1.2)
    ∧ computeGain 0.36 1 GestureType.tap strokeSpeed = 0.36 := by
  refine ⟨by simp [computeGain], by simp [computeGain], fun gesture => ?_, ?_⟩
  · cases gesture <;>
      exact ⟨le_clamp _ _ _ (by norm_num), clamp_le _ _ _⟩
  · have h : computeGain 0.36 1 GestureType.tap strokeSpeed = clamp (0.36 * 1) 0.01 1.2 := by
      simp [computeGain]
    rw [h, clamp]
    norm_num [min_def, max_def]

/-- C4: `computePlaybackRate` returns 1.08 for taps on the tapping category,
1.0 for taps elsewhere; for drags it computes `term = clamp(speed/700, 0, 1.3)`
and returns `0.82 + 0.22 term` (ear_cleaning), `0.88 + 0.2 term` (water),
`0.9 + 0.22 term` (otherwise); `computePlaybackRate(water, drag, 700) = 1.08`. -/
theorem C4_computePlaybackRate_contract (category : SoundCategory) (strokeSpeed : ℚ) :
    computePlaybackRate category GestureType.tap strokeSpeed
      = (if category = SoundCategory.tapping then 1.08 else 1)
    ∧ computePlaybackRate category GestureType.drag strokeSpeed
      = (if category = SoundCategory.ear_cleaning then
           0.82 + clamp (strokeSpeed / 700) 0 1.3 * 0.22
         else if category = SoundCategory.water then
           0.88 + clamp (strokeSpeed / 700) 0 1.3 * 0.2
         else 0.9 + clamp (strokeSpeed / 700) 0 1.3 * 0.22)
    ∧ computePlaybackRate SoundCategory.water GestureType.drag 700 = 1.08 := by
  refine ⟨by simp [computePlaybackRate], by simp [computePlaybackRate], ?_⟩
  simp [computePlaybackRate, clamp]
  norm_num [min_def, max_def]

/-- C6: every panner application clamps x and z to `[-2.5, 2.5]` and y to
`[-1.6, 1.6]`, schedules the move as an exponential approach with the given
time constant (never an instantaneous coordinate assignment), and always sets
HRTF panning, inverse distance model, refDistance 1, maxDistance 8, rolloff 1. -/
theorem C6_applyPannerValues_contract (node : ℕ) (position : AudioPosition)
    (currentTime smoothingTime : ℚ) :
    AudioEvent.setPanningModel node "HRTF"
      ∈ applyPannerValues node position currentTime smoothingTime
    ∧ AudioEvent.setDistanceModel node "inverse"
      ∈ applyPannerValues node position currentTime smoothingTime
    ∧ AudioEvent.setRefDistance node 1
      ∈ applyPannerValues node position currentTime smoothingTime
    ∧ AudioEvent.setMaxDistance node 8
      ∈ applyPannerValues node position currentTime smoothingTime
    ∧ AudioEvent.setRolloffFactor node 1
      ∈ applyPannerValues node position currentTime smoothingTime
    ∧ AudioEvent.setPannerXTarget node (clamp position.x (-2.5) 2.5) currentTime smoothingTime
      ∈ applyPannerValues node position currentTime smoothingTime
    ∧ AudioEvent.setPannerYTarget node (clamp position.y (-1.6) 1.6) currentTime smoothingTime
      ∈ applyPannerValues node position currentTime smoothingTime
    ∧ AudioEvent.setPannerZTarget node (clamp position.z (-2.5) 2.5) currentTime smoothingTime
      ∈ applyPannerValues node position currentTime smoothingTime
    ∧ (-2.5 ≤ clamp position.x (-2.5) 2.5 ∧ clamp position.x (-2.5) 2.5 ≤ 2.5)
    ∧ (-1.6 ≤ clamp position.y (-1.6) 1.6 ∧ clamp position.y (-1.6) 1.6 ≤ 1.6)
    ∧ (-2.5 ≤ clamp position.z (-2.5) 2.5 ∧ clamp position.z (-2.5) 2.5 ≤ 2.5)
    ∧ (∀ v : ℚ,
        AudioEvent.setPannerXValue node v
          ∉ applyPannerValues node position currentTime smoothingTime
        ∧ AudioEvent.setPannerYValue node v
          ∉ applyPannerValues node position currentTime smoothingTime
        ∧ AudioEvent.setPannerZValue node v
          ∉ applyPannerValues node position currentTime smoothingTime) := by
  refine ⟨by simp [applyPannerValues], by simp [applyPannerValues],
    by simp [applyPannerValues], by simp [applyPannerValues], by simp [applyPannerValues],
    by simp [applyPannerValues], by simp [applyPannerValues], by simp [applyPannerValues],
    ⟨le_clamp _ _ _ (by norm_num), clamp_le _ _ _⟩,
    ⟨le_clamp _ _ _ (by norm_num), clamp_le _ _ _⟩,
    ⟨le_clamp _ _ _ (by norm_num), clamp_le _ _ _⟩,
    fun v => ⟨by simp [applyPannerValues], by simp [applyPannerValues],
      by simp [applyPannerValues]⟩⟩

theorem C6_applyPannerValues_contract_witness :
    AudioEvent.setPanningModel 7 "HRTF" ∈ applyPannerValues 7 ⟨3, -2, 0.5⟩ 1 0.02
    ∧ AudioEvent.setPannerXTarget 7 (clamp 3 (-2.5) 2.5) 1 0.02
        ∈ applyPannerValues 7 ⟨3, -2, 0.5⟩ 1 0.02
    ∧ AudioEvent.setPannerXValue 7 3 ∉ applyPannerValues 7 ⟨3, -2, 0.5⟩ 1 0.02 :=
  ⟨(C6_applyPannerValues_contract 7 ⟨3, -2, 0.5⟩ 1 0.02).1,
   (C6_applyPannerValues_contract 7 ⟨3, -2, 0.5⟩ 1 0.02).2.2.2.2.2.1,
   ((C6_applyPannerValues_contract 7 ⟨3, -2, 0.5⟩ 1 0.02).2.2.2.2.2.2.2.2.2.2.2 3).1⟩

theorem createBuffer_error_of_nonpos (sampleRate : ℕ) (durationSeconds : ℚ)
    (h : durationSeconds ≤ 0) :
    createBuffer sampleRate durationSeconds
      = Except.error "Duration must be greater than zero." := by
  simp [createBuffer, h]

/-- C9: non-positive durations are a caller error: `createBuffer` throws for
every `durationSeconds ≤ 0` and so does every synthesis generator reached for
a descriptor with non-positive default duration; for `durationSeconds > 0` it
returns a mono (1-channel) buffer of `floor(sampleRate * durationSeconds)`
frames. -/
theorem C9_createBuffer_rejects_invalid (sampleRate : ℕ) (durationSeconds : ℚ) :
    (durationSeconds ≤ 0 →
      createBuffer sampleRate durationSeconds
        = Except.error "Duration must be greater than zero.")
    ∧ (0 < durationSeconds →
      createBuffer sampleRate durationSeconds
        = Except.ok
            ⟨1, (Int.floor ((sampleRate : ℚ) * durationSeconds)).toNat, sampleRate⟩)
    ∧ (∀ (α : Type) [LinearOrderedField α] (ops : SynthOps α) (sound : SoundDefinition),
        sound.defaultDurationSeconds ≤ 0 →
        renderSynthBuffer ops sampleRate sound
          = Except.error "Duration must be greater than zero.") := by
  refine ⟨createBuffer_error_of_nonpos sampleRate durationSeconds, ?_, ?_⟩
  · intro h
    simp [createBuffer, not_le.mpr h]
  · intro α _ ops sound h
    have herr := createBuffer_error_of_nonpos sampleRate sound.defaultDurationSeconds h
    cases hc : sound.category <;>
      simp [renderSynthBuffer, hc, renderWhisperBuffer, renderTapBuffer, renderScratchBuffer,
        renderBrushBuffer, renderWaterBuffer, renderEarCleaningBuffer, renderAmbientBuffer,
        herr, Except.map]

theorem C9_createBuffer_rejects_invalid_witness :
    createBuffer 48000 (-1 : ℚ) = Except.error "Duration must be greater than zero."
    ∧ createBuffer 48000 (1 / 2 : ℚ) = Except.ok ⟨1, 24000, 48000⟩
    ∧ renderSynthBuffer (⟨fun _ => 0, fun _ => 0, fun _ _ => 0, 0⟩ : SynthOps ℚ) 48000
        ⟨"degenerate", SoundCategory.water, 1, -1, false, 7, none⟩
        = Except.error "Duration must be greater than zero." := by
  refine ⟨(C9_createBuffer_rejects_invalid 48000 (-1)).1 (by norm_num), ?_, ?_⟩
  · have h := (C9_createBuffer_rejects_invalid 48000 (1 / 2)).2.1 (by norm_num)
    rw [h]
    norm_num
    rfl
  · exact (C9_createBuffer_rejects_invalid 48000 (-1)).2.2 ℚ
      ⟨fun _ => 0, fun _ => 0, fun _ _ => 0, 0⟩
      ⟨"degenerate", SoundCategory.water, 1, -1, false, 7, none⟩ (by norm_num)

/-! ## Session lifecycle lemmas -/

theorem endStroke_of_none (s : EngineState) (h : s.activeStrokeSession = none) :
    endStroke s = s := by
  simp [endStroke, h]

theorem endStroke_none_after (s : EngineState) (h : s.contextInitialized = true) :
    (endStroke s).activeStrokeSession = none := by
  rcases hs : s.activeStrokeSession with _ | sess <;> simp [endStroke, hs, h]

theorem stopAmbientTrack_of_none (s : EngineState) (h : s.activeBgmSession = none) :
    stopAmbientTrack s = s := by
  simp [stopAmbientTrack, h]

/-- C8: teardown is idempotent: `endStroke` with no active stroke session is
the identity, `endStroke` twice in a row equals `endStroke` once, and the same
holds for `stopAmbientTrack`. -/
theorem C8_idempotent_teardown (s : EngineState) :
    (s.activeStrokeSession = none → endStroke s = s)
    ∧ endStroke (endStroke s) = endStroke s
    ∧ (s.activeBgmSession = none → stopAmbientTrack s = s)
    ∧ stopAmbientTrack (stopAmbientTrack s) = stopAmbientTrack s := by
  refine ⟨endStroke_of_none s, ?_, stopAmbientTrack_of_none s, ?_⟩
  · rcases hs : s.activeStrokeSession with _ | sess
    · rw [endStroke_of_none s hs, endStroke_of_none s hs]
    · rcases hc : s.contextInitialized
      · have h1 : endStroke s = s := by simp [endStroke, hs, hc]
        rw [h1, h1]
      · apply endStroke_of_none
        exact endStroke_none_after s hc
  · rcases hs : s.activeBgmSession with _ | bgm
    · rw [stopAmbientTrack_of_none s hs, stopAmbientTrack_of_none s hs]
    · rcases hc : s.contextInitialized
      · have h1 : stopAmbientTrack s = s := by simp [stopAmbientTrack, hs, hc]
        rw [h1, h1]
      · apply stopAmbientTrack_of_none
        simp [stopAmbientTrack, hs, hc]

theorem C8_idempotent_teardown_witness :
    endStroke initialEngine = initialEngine
    ∧ endStroke (endStroke initialEngine) = endStroke initialEngine
    ∧ stopAmbientTrack initialEngine = initialEngine
    ∧ stopAmbientTrack (stopAmbientTrack initialEngine) = stopAmbientTrack initialEngine :=
  ⟨(C8_idempotent_teardown initialEngine).1 rfl,
   (C8_idempotent_teardown initialEngine).2.1,
   (C8_idempotent_teardown initialEngine).2.2.1 rfl,
   (C8_idempotent_teardown initialEngine).2.2.2⟩

/-! ## Buffer cache lemmas -/

theorem cacheLookup_append_of_some (soundId : String) (l m : List (String × ℕ)) (b : ℕ)
    (h : cacheLookup soundId l = some b) :
    cacheLookup soundId (l ++ m) = some b := by
  induction l with
  | nil => simp [cacheLookup] at h
  | cons kv rest ih =>
    rcases kv with ⟨k, v⟩
    rw [List.cons_append, cacheLookup] at *
    by_cases hk : k = soundId
    · simpa [hk] using h
    · rw [if_neg hk] at h ⊢
      exact ih h

theorem cacheLookup_append_self (soundId : String) (l : List (String × ℕ)) (b : ℕ)
    (h : cacheLookup soundId l = none) :
    cacheLookup soundId (l ++ [(soundId, b)]) = some b := by
  induction l with
  | nil => simp [cacheLookup]
  | cons kv rest ih =>
    rcases kv with ⟨k, v⟩
    rw [cacheLookup] at h
    by_cases hk : k = soundId
    · simp [hk] at h
    · rw [List.cons_append, cacheLookup, if_neg hk]
      exact ih (by simpa [hk] using h)

theorem getOrCreateBuffer_presupplied (s : EngineState) (sound : SoundDefinition) (b : ℕ)
    (h : sound.audioBuffer = some b) :
    getOrCreateBuffer s sound = (b, s) := by
  simp [getOrCreateBuffer, h]

theorem getOrCreateBuffer_hit (s : EngineState) (sound : SoundDefinition) (b : ℕ)
    (h1 : sound.audioBuffer = none) (h2 : cacheLookup sound.id s.bufferCache = some b) :
    getOrCreateBuffer s sound = (b, s) := by
  simp [getOrCreateBuffer, h1, h2]

theorem getOrCreateBuffer_miss (s : EngineState) (sound : SoundDefinition)
    (h1 : sound.audioBuffer = none) (h2 : cacheLookup sound.id s.bufferCache = none) :
    getOrCreateBuffer s sound =
      (s.nextBufferId,
       { s with
           nextBufferId := s.nextBufferId + 1
           bufferCache := s.bufferCache ++ [(sound.id, s.nextBufferId)]
           synthCount := s.synthCount + 1 }) := by
  simp [getOrCreateBuffer, h1, h2]

theorem getOrCreateBuffer_fields (s : EngineState) (sound : SoundDefinition) :
    (getOrCreateBuffer s sound).2.events = s.events
    ∧ (getOrCreateBuffer s sound).2.currentTime = s.currentTime
    ∧ (getOrCreateBuffer s sound).2.nextNodeId = s.nextNodeId
    ∧ (getOrCreateBuffer s sound).2.contextInitialized = s.contextInitialized
    ∧ (getOrCreateBuffer s sound).2.activeStrokeSession = s.activeStrokeSession
    ∧ (getOrCreateBuffer s sound).2.activeBgmSession = s.activeBgmSession
    ∧ (getOrCreateBuffer s sound).2.masterNode = s.masterNode := by
  rcases h : sound.audioBuffer with _ | b
  · rcases h2 : cacheLookup sound.id s.bufferCache with _ | b
    · rw [getOrCreateBuffer_miss s sound h h2]
      exact ⟨rfl, rfl, rfl, rfl, rfl, rfl, rfl⟩
    · rw [getOrCreateBuffer_hit s sound b h h2]
      exact ⟨rfl, rfl, rfl, rfl, rfl, rfl, rfl⟩
  · rw [getOrCreateBuffer_presupplied s sound b h]
    exact ⟨rfl, rfl, rfl, rfl, rfl, rfl, rfl⟩

theorem getOrCreateBuffer_cache_extends (s : EngineState) (sound : SoundDefinition) :
    ∃ m, (getOrCreateBuffer s sound).2.bufferCache = s.bufferCache ++ m := by
  rcases h : sound.audioBuffer with _ | b
  · rcases h2 : cacheLookup sound.id s.bufferCache with _ | b
    · exact ⟨[(sound.id, s.nextBufferId)], by rw [getOrCreateBuffer_miss s sound h h2]⟩
    · exact ⟨[], by rw [getOrCreateBuffer_hit s sound b h h2]; simp⟩
  · exact ⟨[], by rw [getOrCreateBuffer_presupplied s sound b h]; simp⟩

theorem ensureContext_fields (s : EngineState) :
    (ensureContext s).bufferCache = s.bufferCache
    ∧ (ensureContext s).events = s.events
    ∧ (ensureContext s).currentTime = s.currentTime
    ∧ (ensureContext s).activeStrokeSession = s.activeStrokeSession
    ∧ (ensureContext s).activeBgmSession = s.activeBgmSession
    ∧ (ensureContext s).synthCount = s.synthCount
    ∧ (ensureContext s).contextInitialized = true := by
  rw [ensureContext]
  split
  · next hc => exact ⟨rfl, rfl, rfl, rfl, rfl, rfl, hc⟩
  · exact ⟨rfl, rfl, rfl, rfl, rfl, rfl, rfl⟩

theorem endStroke_fields (s : EngineState) :
    (endStroke s).bufferCache = s.bufferCache
    ∧ (endStroke s).currentTime = s.currentTime
    ∧ (endStroke s).nextNodeId = s.nextNodeId
    ∧ (endStroke s).contextInitialized = s.contextInitialized
    ∧ (endStroke s).activeBgmSession = s.activeBgmSession
    ∧ (endStroke s).masterNode = s.masterNode
    ∧ (endStroke s).nextBufferId = s.nextBufferId
    ∧ (endStroke s).synthCount = s.synthCount := by
  rcases hs : s.activeStrokeSession with _ | sess
  · rw [endStroke_of_none s hs]
    exact ⟨rfl, rfl, rfl, rfl, rfl, rfl, rfl, rfl⟩
  · rcases hc : s.contextInitialized <;>
      simp [endStroke, hs, hc]

theorem stopAmbientTrack_fields (s : EngineState) :
    (stopAmbientTrack s).bufferCache = s.bufferCache
    ∧ (stopAmbientTrack s).currentTime = s.currentTime
    ∧ (stopAmbientTrack s).nextNodeId = s.nextNodeId
    ∧ (stopAmbientTrack s).contextInitialized = s.contextInitialized
    ∧ (stopAmbientTrack s).activeStrokeSession = s.activeStrokeSession
    ∧ (stopAmbientTrack s).masterNode = s.masterNode
    ∧ (stopAmbientTrack s).nextBufferId = s.nextBufferId
    ∧ (stopAmbientTrack s).synthCount = s.synthCount := by
  rcases hs : s.activeBgmSession with _ | bgm
  · rw [stopAmbientTrack_of_none s hs]
    exact ⟨rfl, rfl, rfl, rfl, rfl, rfl, rfl, rfl⟩
  · rcases hc : s.contextInitialized <;>
      simp [stopAmbientTrack, hs, hc]

theorem strokeSessionCreate_cache_extends (s : EngineState) (sound : SoundDefinition) :
    ∃ m, (strokeSessionCreate s sound).2.bufferCache = s.bufferCache ++ m := by
  obtain ⟨m, hm⟩ := getOrCreateBuffer_cache_extends s sound
  exact ⟨m, hm⟩

theorem getOrCreateStrokeSession_cache_extends (s : EngineState) (sound : SoundDefinition) :
    ∃ m, (getOrCreateStrokeSession s sound).2.bufferCache = s.bufferCache ++ m := by
  rcases hs : s.activeStrokeSession with _ | sess
  · obtain ⟨m, hm⟩ := strokeSessionCreate_cache_extends (endStroke s) sound
    rw [(endStroke_fields s).1] at hm
    exact ⟨m, by simpa [getOrCreateStrokeSession, hs] using hm⟩
  · by_cases hid : sess.soundId = sound.id
    · exact ⟨[], by simp [getOrCreateStrokeSession, hs, hid]⟩
    · obtain ⟨m, hm⟩ := strokeSessionCreate_cache_extends (endStroke s) sound
      rw [(endStroke_fields s).1] at hm
      exact ⟨m, by simpa [getOrCreateStrokeSession, hs, hid] using hm⟩

theorem updateStroke_cache_extends (s : EngineState) (r : PlaybackRequest) :
    ∃ m, (updateStroke s r).bufferCache = s.bufferCache ++ m := by
  obtain ⟨m, hm⟩ := getOrCreateStrokeSession_cache_extends (ensureContext s) r.sound
  rw [(ensureContext_fields s).1] at hm
  exact ⟨m, hm⟩

theorem play_cache_extends (s : EngineState) (r : PlaybackRequest) :
    ∃ m, (play s r).bufferCache = s.bufferCache ++ m := by
  obtain ⟨m, hm⟩ := getOrCreateBuffer_cache_extends (ensureContext s) r.sound
  rw [(ensureContext_fields s).1] at hm
  exact ⟨m, hm⟩

theorem ambientCreate_cache_extends (s : EngineState) (sound : SoundDefinition) (safeGain : ℚ) :
    ∃ m, (ambientCreate s sound safeGain).bufferCache = s.bufferCache ++ m := by
  obtain ⟨m, hm⟩ := getOrCreateBuffer_cache_extends s sound
  exact ⟨m, hm⟩

theorem setAmbientTrack_cache_extends (s : EngineState) (sound : Option SoundDefinition)
    (gainValue : ℚ) :
    ∃ m, (setAmbientTrack s sound gainValue).bufferCache = s.bufferCache ++ m := by
  rcases sound with _ | snd
  · exact ⟨[], by simp [setAmbientTrack, (stopAmbientTrack_fields s).1]⟩
  · rw [setAmbientTrack]
    rcases hb : (ensureContext s).activeBgmSession with _ | bgm
    · obtain ⟨m, hm⟩ := ambientCreate_cache_extends (stopAmbientTrack (ensureContext s)) snd
        (clamp gainValue 0 1.2)
      rw [(stopAmbientTrack_fields (ensureContext s)).1, (ensureContext_fields s).1] at hm
      exact ⟨m, hm⟩
    · by_cases hid : bgm.soundId = snd.id
      · exact ⟨[], by simp [hid, (ensureContext_fields s).1]⟩
      · obtain ⟨m, hm⟩ := ambientCreate_cache_extends (stopAmbientTrack (ensureContext s)) snd
          (clamp gainValue 0 1.2)
        rw [(stopAmbientTrack_fields (ensureContext s)).1, (ensureContext_fields s).1] at hm
        exact ⟨m, by simp [hid]; exact hm⟩

theorem applyOp_cache_extends (s : EngineState) (op : EngineOp) (h : op ≠ EngineOp.dispose) :
    ∃ m, (applyOp s op).bufferCache = s.bufferCache ++ m := by
  cases op with
  | play r => exact play_cache_extends s r
  | updateStroke r => exact updateStroke_cache_extends s r
  | endStroke => exact ⟨[], by rw [applyOp, (endStroke_fields s).1]; simp⟩
  | setAmbientTrack snd g => exact setAmbientTrack_cache_extends s snd g
  | stopAmbientTrack => exact ⟨[], by rw [applyOp, (stopAmbientTrack_fields s).1]; simp⟩
  | dispose => exact absurd rfl h

theorem run_cacheLookup_preserved (ops : List EngineOp) (hops : EngineOp.dispose ∉ ops) :
    ∀ (s : EngineState) (soundId : String) (b : ℕ),
      cacheLookup soundId s.bufferCache = some b →
      cacheLookup soundId (run s ops).bufferCache = some b := by
  induction ops with
  | nil => exact fun s soundId b h => h
  | cons op rest ih =>
    intro s soundId b h
    rw [run]
    obtain ⟨m, hm⟩ := applyOp_cache_extends s op (by rintro rfl; exact hops (List.mem_cons_self _ _))
    refine ih (fun hmem => hops (List.mem_cons_of_mem _ hmem)) (applyOp s op) soundId b ?_
    rw [hm]
    exact cacheLookup_append_of_some _ _ _ _ h

/-- C7: buffer resolution is idempotent: sounds with a pre-supplied buffer
return it as-is without caching; otherwise a first resolution synthesizes
exactly once and caches under the sound id, and any later resolution returns
the identical cached buffer with no further synthesis, with cache entries
surviving every engine operation other than `dispose`. -/
theorem C7_buffer_cache_idempotent (s : EngineState) (sound : SoundDefinition) :
    (∀ b, sound.audioBuffer = some b → getOrCreateBuffer s sound = (b, s))
    ∧ (sound.audioBuffer = none → cacheLookup sound.id s.bufferCache = none →
        (getOrCreateBuffer s sound).2.synthCount = s.synthCount + 1
        ∧ cacheLookup sound.id (getOrCreateBuffer s sound).2.bufferCache
            = some (getOrCreateBuffer s sound).1
        ∧ getOrCreateBuffer (getOrCreateBuffer s sound).2 sound
            = ((getOrCreateBuffer s sound).1, (getOrCreateBuffer s sound).2))
    ∧ (sound.audioBuffer = none → ∀ b, cacheLookup sound.id s.bufferCache = some b →
        getOrCreateBuffer s sound = (b, s))
    ∧ (∀ ops : List EngineOp, EngineOp.dispose ∉ ops → ∀ b,
        cacheLookup sound.id s.bufferCache = some b →
        cacheLookup sound.id (run s ops).bufferCache = some b) := by
  refine ⟨fun b h => getOrCreateBuffer_presupplied s sound b h, ?_, ?_, ?_⟩
  · intro h1 h2
    rw [getOrCreateBuffer_miss s sound h1 h2]
    have hcache : cacheLookup sound.id (s.bufferCache ++ [(sound.id, s.nextBufferId)])
        = some s.nextBufferId := cacheLookup_append_self _ _ _ h2
    exact ⟨rfl, hcache, getOrCreateBuffer_hit _ sound _ h1 hcache⟩
  · exact fun h1 b h2 => getOrCreateBuffer_hit s sound b h1 h2
  · exact fun ops hops b h => run_cacheLookup_preserved ops hops s sound.id b h

theorem C7_buffer_cache_idempotent_witness :
    getOrCreateBuffer initialEngine
        ⟨"user-clip", SoundCategory.user, 1, 1, true, 0, some 99⟩
      = (99, initialEngine)
    ∧ (getOrCreateBuffer initialEngine
        ⟨"whisper-soft", SoundCategory.whisper, 0.36, 1.8, false, 11, none⟩).2.synthCount = 1
    ∧ getOrCreateBuffer
        (getOrCreateBuffer initialEngine
          ⟨"whisper-soft", SoundCategory.whisper, 0.36, 1.8, false, 11, none⟩).2
        ⟨"whisper-soft", SoundCategory.whisper, 0.36, 1.8, false, 11, none⟩
      = ((getOrCreateBuffer initialEngine
            ⟨"whisper-soft", SoundCategory.whisper, 0.36, 1.8, false, 11, none⟩).1,
         (getOrCreateBuffer initialEngine
            ⟨"whisper-soft", SoundCategory.whisper, 0.36, 1.8, false, 11, none⟩).2)
    ∧ cacheLookup "whisper-soft"
        (run (getOrCreateBuffer initialEngine
          ⟨"whisper-soft", SoundCategory.whisper, 0.36, 1.8, false, 11, none⟩).2
          [EngineOp.endStroke, EngineOp.stopAmbientTrack]).bufferCache
      = some (getOrCreateBuffer initialEngine
          ⟨"whisper-soft", SoundCategory.whisper, 0.36, 1.8, false, 11, none⟩).1 := by
  have hmiss := (C7_buffer_cache_idempotent initialEngine
    ⟨"whisper-soft", SoundCategory.whisper, 0.36, 1.8, false, 11, none⟩).2.1 rfl rfl
  refine ⟨(C7_buffer_cache_idempotent initialEngine
      ⟨"user-clip", SoundCategory.user, 1, 1, true, 0, some 99⟩).1 99 rfl,
    hmiss.1, hmiss.2.2, ?_⟩
  refine (C7_buffer_cache_idempotent
      (getOrCreateBuffer initialEngine
        ⟨"whisper-soft", SoundCategory.whisper, 0.36, 1.8, false, 11, none⟩).2
      ⟨"whisper-soft", SoundCategory.whisper, 0.36, 1.8, false, 11, none⟩).2.2.2
    [EngineOp.endStroke, EngineOp.stopAmbientTrack] (by simp) _ hmiss.2.1

/-! ## Ambient track lemmas -/

theorem ambientCreate_events (s : EngineState) (sound : SoundDefinition) (safeGain : ℚ) :
    (ambientCreate s sound safeGain).events = s.events ++
      [AudioEvent.setBuffer s.nextNodeId (getOrCreateBuffer s sound).1,
       AudioEvent.setLoop s.nextNodeId true,
       AudioEvent.setRateValue s.nextNodeId 1,
       AudioEvent.setFilterType (s.nextNodeId + 2) "lowpass",
       AudioEvent.setFilterFrequency (s.nextNodeId + 2) 2800,
       AudioEvent.setFilterQ (s.nextNodeId + 2) 0.7,
       AudioEvent.setGainValue (s.nextNodeId + 1) 0.0001,
       AudioEvent.connect s.nextNodeId (s.nextNodeId + 2),
       AudioEvent.connect (s.nextNodeId + 2) (s.nextNodeId + 1),
       AudioEvent.connect (s.nextNodeId + 1) (masterNodeId s),
       AudioEvent.startSource s.nextNodeId (s.currentTime + 0.005),
       AudioEvent.setGainTarget (s.nextNodeId + 1) safeGain s.currentTime 0.15] := by
  obtain ⟨he, hct, hnn, _, _, _, hmn⟩ := getOrCreateBuffer_fields s sound
  rw [ambientCreate]
  simp only [masterNodeId, he, hct, hnn, hmn]

theorem stopAmbientTrack_some_eq (s : EngineState) (bgm : BgmSessionState)
    (hb : s.activeBgmSession = some bgm) (hc : s.contextInitialized = true) :
    stopAmbientTrack s =
      { s with
          events := s.events ++
            [AudioEvent.setGainTarget bgm.gainNode 0.0001 s.currentTime 0.1,
             AudioEvent.stopSource bgm.sourceNode (s.currentTime + 0.4),
             AudioEvent.onEndedDisconnect [bgm.sourceNode, bgm.gainNode, bgm.filterNode]]
          activeBgmSession := none } := by
  simp [stopAmbientTrack, hb, hc]

theorem setAmbientTrack_none_eq (s : EngineState) (sound : SoundDefinition) (gainValue : ℚ)
    (hb : (ensureContext s).activeBgmSession = none) :
    setAmbientTrack s (some sound) gainValue =
      ambientCreate (stopAmbientTrack (ensureContext s)) sound (clamp gainValue 0 1.2) := by
  rw [setAmbientTrack, hb]

theorem setAmbientTrack_same_eq (s : EngineState) (sound : SoundDefinition) (gainValue : ℚ)
    (bgm : BgmSessionState) (hb : (ensureContext s).activeBgmSession = some bgm)
    (hid : bgm.soundId = sound.id) :
    setAmbientTrack s (some sound) gainValue =
      { ensureContext s with
          events := (ensureContext s).events ++
            [AudioEvent.setGainTarget bgm.gainNode (clamp gainValue 0 1.2)
              (ensureContext s).currentTime 0.08] } := by
  rw [setAmbientTrack, hb]
  simp [hid, hb]

theorem setAmbientTrack_diff_eq (s : EngineState) (sound : SoundDefinition) (gainValue : ℚ)
    (bgm : BgmSessionState) (hb : (ensureContext s).activeBgmSession = some bgm)
    (hid : ¬bgm.soundId = sound.id) :
    setAmbientTrack s (some sound) gainValue =
      ambientCreate (stopAmbientTrack (ensureContext s)) sound (clamp gainValue 0 1.2) := by
  rw [setAmbientTrack, hb]
  simp [hid]

/-- C10: for every non-null `setAmbientTrack(sound, gainValue)` call, the gain
target actually scheduled for the ambient session — retargeting or creating —
is `clamp(gainValue, 0, 1.2)`, which is never negative and never above 1.2;
all newly scheduled gain targets carry either that clamped value or the
near-zero teardown constant, never the raw caller value. -/
theorem C10_ambient_gain_clamped (s : EngineState) (sound : SoundDefinition) (gainValue : ℚ) :
    (∃ node timeConstant,
        AudioEvent.setGainTarget node (clamp gainValue 0 1.2) s.currentTime timeConstant
          ∈ (setAmbientTrack s (some sound) gainValue).events
        ∧ (timeConstant = 0.08 ∨ timeConstant = 0.15))
    ∧ 0 ≤ clamp gainValue 0 1.2
    ∧ clamp gainValue 0 1.2 ≤ 1.2
    ∧ (∀ node target startTime timeConstant,
        AudioEvent.setGainTarget node target startTime timeConstant
          ∈ (setAmbientTrack s (some sound) gainValue).events →
        AudioEvent.setGainTarget node target startTime timeConstant ∈ s.events
        ∨ target = clamp gainValue 0 1.2 ∨ target = 0.0001) := by
  obtain ⟨hbc, hev, hct, hstroke, hbgm, hsyn, hctx⟩ := ensureContext_fields s
  rcases hb : (ensureContext s).activeBgmSession with _ | bgm
  · -- no active ambient session: teardown is a no-op, a new session is created
    have hstop : stopAmbientTrack (ensureContext s) = ensureContext s :=
      stopAmbientTrack_of_none _ hb
    have hevs : (setAmbientTrack s (some sound) gainValue).events =
        s.events ++
          [AudioEvent.setBuffer (ensureContext s).nextNodeId
             (getOrCreateBuffer (ensureContext s) sound).1,
           AudioEvent.setLoop (ensureContext s).nextNodeId true,
           AudioEvent.setRateValue (ensureContext s).nextNodeId 1,
           AudioEvent.setFilterType ((ensureContext s).nextNodeId + 2) "lowpass",
           AudioEvent.setFilterFrequency ((ensureContext s).nextNodeId + 2) 2800,
           AudioEvent.setFilterQ ((ensureContext s).nextNodeId + 2) 0.7,
           AudioEvent.setGainValue ((ensureContext s).nextNodeId + 1) 0.0001,
           AudioEvent.connect (ensureContext s).nextNodeId ((ensureContext s).nextNodeId + 2),
           AudioEvent.connect ((ensureContext s).nextNodeId + 2) ((ensureContext s).nextNodeId + 1),
           AudioEvent.connect ((ensureContext s).nextNodeId + 1) (masterNodeId (ensureContext s)),
           AudioEvent.startSource (ensureContext s).nextNodeId (s.currentTime + 0.005),
           AudioEvent.setGainTarget ((ensureContext s).nextNodeId + 1) (clamp gainValue 0 1.2)
             s.currentTime 0.15] := by
      rw [setAmbientTrack_none_eq s sound gainValue hb, hstop, ambientCreate_events, hev, hct]
    refine ⟨⟨(ensureContext s).nextNodeId + 1, 0.15, ?_, Or.inr rfl⟩,
      le_clamp _ _ _ (by norm_num), clamp_le _ _ _, ?_⟩
    · rw [hevs]
      simp
    · intro node target startTime timeConstant hmem
      rw [hevs] at hmem
      rcases List.mem_append.mp hmem with h | h
      · exact Or.inl h
      · simp only [List.mem_cons, List.not_mem_nil, or_false] at h
        rcases h with h | h | h | h | h | h | h | h | h | h | h | h <;>
          simp_all
  · by_cases hid : bgm.soundId = sound.id
    · -- same id: retarget only
      have hevs : (setAmbientTrack s (some sound) gainValue).events =
          s.events ++ [AudioEvent.setGainTarget bgm.gainNode (clamp gainValue 0 1.2)
            s.currentTime 0.08] := by
        rw [setAmbientTrack_same_eq s sound gainValue bgm hb hid]
        simp [hev, hct]
      refine ⟨⟨bgm.gainNode, 0.08, ?_, Or.inl rfl⟩,
        le_clamp _ _ _ (by norm_num), clamp_le _ _ _, ?_⟩
      · rw [hevs]
        simp
      · intro node target startTime timeConstant hmem
        rw [hevs] at hmem
        rcases List.mem_append.mp hmem with h | h
        · exact Or.inl h
        · simp only [List.mem_cons, List.not_mem_nil, or_false] at h
          simp_all
    · -- different id: teardown of the old session, then a fresh one
      have hstop := stopAmbientTrack_some_eq (ensureContext s) bgm hb hctx
      have hfields := stopAmbientTrack_fields (ensureContext s)
      have hevs : (setAmbientTrack s (some sound) gainValue).events =
          (s.events ++
            [AudioEvent.setGainTarget bgm.gainNode 0.0001 s.currentTime 0.1,
             AudioEvent.stopSource bgm.sourceNode (s.currentTime + 0.4),
             AudioEvent.onEndedDisconnect [bgm.sourceNode, bgm.gainNode, bgm.filterNode]]) ++
            [AudioEvent.setBuffer (stopAmbientTrack (ensureContext s)).nextNodeId
               (getOrCreateBuffer (stopAmbientTrack (ensureContext s)) sound).1,
             AudioEvent.setLoop (stopAmbientTrack (ensureContext s)).nextNodeId true,
             AudioEvent.setRateValue (stopAmbientTrack (ensureContext s)).nextNodeId 1,
             AudioEvent.setFilterType ((stopAmbientTrack (ensureContext s)).nextNodeId + 2)
               "lowpass",
             AudioEvent.setFilterFrequency ((stopAmbientTrack (ensureContext s)).nextNodeId + 2)
               2800,
             AudioEvent.setFilterQ ((stopAmbientTrack (ensureContext s)).nextNodeId + 2) 0.7,
             AudioEvent.setGainValue ((stopAmbientTrack (ensureContext s)).nextNodeId + 1) 0.0001,
             AudioEvent.connect (stopAmbientTrack (ensureContext s)).nextNodeId
               ((stopAmbientTrack (ensureContext s)).nextNodeId + 2),
             AudioEvent.connect ((stopAmbientTrack (ensureContext s)).nextNodeId + 2)
               ((stopAmbientTrack (ensureContext s)).nextNodeId + 1),
             AudioEvent.connect ((stopAmbientTrack (ensureContext s)).nextNodeId + 1)
               (masterNodeId (stopAmbientTrack (ensureContext s))),
             AudioEvent.startSource (stopAmbientTrack (ensureContext s)).nextNodeId
               (s.currentTime + 0.005),
             AudioEvent.setGainTarget ((stopAmbientTrack (ensureContext s)).nextNodeId + 1)
               (clamp gainValue 0 1.2) s.currentTime 0.15] := by
        rw [setAmbientTrack_diff_eq s sound gainValue bgm hb hid, ambientCreate_events]
        rw [hstop]
        simp [hev, hct]
      refine ⟨⟨(stopAmbientTrack (ensureContext s)).nextNodeId + 1, 0.15, ?_, Or.inr rfl⟩,
        le_clamp _ _ _ (by norm_num), clamp_le _ _ _, ?_⟩
      · rw [hevs]
        simp
      · intro node target startTime timeConstant hmem
        rw [hevs] at hmem
        rcases List.mem_append.mp hmem with h | h
        · rcases List.mem_append.mp h with h | h
          · exact Or.inl h
          · simp only [List.mem_cons, List.not_mem_nil, or_false] at h
            rcases h with h | h | h <;> simp_all
        · simp only [List.mem_cons, List.not_mem_nil, or_false] at h
          rcases h with h | h | h | h | h | h | h | h | h | h | h | h <;>
            simp_all

theorem C10_ambient_gain_clamped_witness :
    ∃ node timeConstant,
      AudioEvent.setGainTarget node (clamp 5 0 1.2) (0 : ℚ) timeConstant
        ∈ (setAmbientTrack initialEngine
            (some ⟨"ambient-rain", SoundCategory.ambient, 0.5, 24, true, 3, none⟩) 5).events
      ∧ (timeConstant = 0.08 ∨ timeConstant = 0.15) :=
  (C10_ambient_gain_clamped initialEngine
    ⟨"ambient-rain", SoundCategory.ambient, 0.5, 24, true, 3, none⟩ 5).1

/-! ## Stroke session lemmas -/

theorem ensureContext_of_initialized (s : EngineState) (h : s.contextInitialized = true) :
    ensureContext s = s := by
  rw [ensureContext, if_pos h]

theorem endStroke_some_eq (s : EngineState) (sess : StrokeSessionState)
    (hs : s.activeStrokeSession = some sess) (hc : s.contextInitialized = true) :
    endStroke s =
      { s with
          events := s.events ++
            [AudioEvent.setGainTarget sess.gainNode 0.0001 s.currentTime 0.05,
             AudioEvent.stopSource sess.sourceNode (s.currentTime + 0.22),
             AudioEvent.onEndedDisconnect [sess.sourceNode, sess.gainNode, sess.pannerNode]]
          activeStrokeSession := none } := by
  simp [endStroke, hs, hc]

theorem strokeSessionCreate_spec (s : EngineState) (sound : SoundDefinition) :
    (strokeSessionCreate s sound).1.soundId = sound.id
    ∧ (strokeSessionCreate s sound).2.activeStrokeSession = some (strokeSessionCreate s sound).1
    ∧ (strokeSessionCreate s sound).1.sourceNode = s.nextNodeId
    ∧ (strokeSessionCreate s sound).1.gainNode = s.nextNodeId + 1
    ∧ (strokeSessionCreate s sound).1.pannerNode = s.nextNodeId + 2
    ∧ (strokeSessionCreate s sound).2.currentTime = s.currentTime
    ∧ (strokeSessionCreate s sound).2.contextInitialized = s.contextInitialized
    ∧ (strokeSessionCreate s sound).2.events = s.events ++
        ([AudioEvent.setBuffer s.nextNodeId (getOrCreateBuffer s sound).1,
          AudioEvent.setLoop s.nextNodeId true,
          AudioEvent.setRateValue s.nextNodeId 0.92,
          AudioEvent.setGainValue (s.nextNodeId + 1) 0.0001]
         ++ applyPannerValues (s.nextNodeId + 2) ⟨0, 0, 0⟩ s.currentTime 0.001
         ++ [AudioEvent.connect s.nextNodeId (s.nextNodeId + 1),
             AudioEvent.connect (s.nextNodeId + 1) (s.nextNodeId + 2),
             AudioEvent.connect (s.nextNodeId + 2) (masterNodeId s),
             AudioEvent.startSource s.nextNodeId (s.currentTime + 0.003)]) := by
  obtain ⟨he, hct, hnn, hci, _, _, hmn⟩ := getOrCreateBuffer_fields s sound
  refine ⟨rfl, rfl, ?_, ?_, ?_, ?_, ?_, ?_⟩
  · exact hnn
  · rw [show (strokeSessionCreate s sound).1.gainNode
        = (getOrCreateBuffer s sound).2.nextNodeId + 1 from rfl, hnn]
  · rw [show (strokeSessionCreate s sound).1.pannerNode
        = (getOrCreateBuffer s sound).2.nextNodeId + 2 from rfl, hnn]
  · exact hct
  · exact hci
  · show (getOrCreateBuffer s sound).2.events ++ _ = _
    rw [he, hct, hnn, show masterNodeId (getOrCreateBuffer s sound).2 = masterNodeId s from by
      rw [masterNodeId, masterNodeId, hmn]]

theorem getOrCreateStrokeSession_active (s : EngineState) (sound : SoundDefinition) :
    (getOrCreateStrokeSession s sound).2.activeStrokeSession
      = some (getOrCreateStrokeSession s sound).1
    ∧ (getOrCreateStrokeSession s sound).1.soundId = sound.id
    ∧ (getOrCreateStrokeSession s sound).2.currentTime = s.currentTime
    ∧ (getOrCreateStrokeSession s sound).2.contextInitialized = s.contextInitialized := by
  obtain ⟨hbc, hctime, hnn, hctx, hbgm, hmn, hnb, hsyn⟩ := endStroke_fields s
  rcases hs : s.activeStrokeSession with _ | sess
  · have h := strokeSessionCreate_spec (endStroke s) sound
    have hgs : getOrCreateStrokeSession s sound = strokeSessionCreate (endStroke s) sound := by
      rw [getOrCreateStrokeSession, hs]
    rw [hgs]
    exact ⟨h.2.1, h.1, h.2.2.2.2.2.1.trans hctime, h.2.2.2.2.2.2.1.trans hctx⟩
  · by_cases hid : sess.soundId = sound.id
    · have hgs : getOrCreateStrokeSession s sound = (sess, s) := by
        rw [getOrCreateStrokeSession, hs]
        simp [hid]
      rw [hgs]
      exact ⟨hs, hid, rfl, rfl⟩
    · have h := strokeSessionCreate_spec (endStroke s) sound
      have hgs : getOrCreateStrokeSession s sound = strokeSessionCreate (endStroke s) sound := by
        rw [getOrCreateStrokeSession, hs]
        simp [hid]
      rw [hgs]
      exact ⟨h.2.1, h.1, h.2.2.2.2.2.1.trans hctime, h.2.2.2.2.2.2.1.trans hctx⟩

theorem updateStroke_active_session (s : EngineState) (r : PlaybackRequest) :
    (updateStroke s r).activeStrokeSession
      = some (getOrCreateStrokeSession (ensureContext s) r.sound).1
    ∧ (getOrCreateStrokeSession (ensureContext s) r.sound).1.soundId = r.sound.id
    ∧ (updateStroke s r).contextInitialized = true
    ∧ (updateStroke s r).currentTime = s.currentTime := by
  obtain ⟨hA, hB, hC, hD⟩ := getOrCreateStrokeSession_active (ensureContext s) r.sound
  obtain ⟨_, _, hct, _, _, _, hctx⟩ := ensureContext_fields s
  exact ⟨hA, hB, hD.trans hctx, hC.trans hct⟩

theorem updateStroke_events (s : EngineState) (r : PlaybackRequest) :
    (updateStroke s r).events
      = (getOrCreateStrokeSession (ensureContext s) r.sound).2.events
        ++ applyPannerValues (getOrCreateStrokeSession (ensureContext s) r.sound).1.pannerNode
             r.position (getOrCreateStrokeSession (ensureContext s) r.sound).2.currentTime
             (computePositionSmoothing r.strokeSpeed)
        ++ [AudioEvent.setGainTarget
              (getOrCreateStrokeSession (ensureContext s) r.sound).1.gainNode
              (computeGain r.sound.defaultGain r.intensity GestureType.drag r.strokeSpeed)
              (getOrCreateStrokeSession (ensureContext s) r.sound).2.currentTime 0.028,
            AudioEvent.setRateTarget
              (getOrCreateStrokeSession (ensureContext s) r.sound).1.sourceNode
              (computePlaybackRate r.sound.category GestureType.drag r.strokeSpeed)
              (getOrCreateStrokeSession (ensureContext s) r.sound).2.currentTime 0.04] := by
  rw [updateStroke]

/-- C5: at most one stroke session is ever active, and after two consecutive
`updateStroke` calls with different sound ids exactly one session remains,
keyed by the second id; the first session's nodes are scheduled for teardown
(gain target 0.0001 with a 0.05 s time constant, source stop 0.22 s later,
disconnect registered on ended) and the new session is a looping source at
playback rate 0.92 with near-silent initial gain. -/
theorem C5_stroke_session_exclusive :
    (∀ ops : List EngineOp, strokeSessionCount (run initialEngine ops) ≤ 1)
    ∧ ∀ (s : EngineState) (r1 r2 : PlaybackRequest),
        r1.sound.id ≠ r2.sound.id →
        ∃ old fresh : StrokeSessionState,
          (updateStroke s r1).activeStrokeSession = some old
          ∧ old.soundId = r1.sound.id
          ∧ (updateStroke (updateStroke s r1) r2).activeStrokeSession = some fresh
          ∧ fresh.soundId = r2.sound.id
          ∧ strokeSessionCount (updateStroke (updateStroke s r1) r2) = 1
          ∧ AudioEvent.setGainTarget old.gainNode 0.0001 (updateStroke s r1).currentTime 0.05
              ∈ (updateStroke (updateStroke s r1) r2).events
          ∧ AudioEvent.stopSource old.sourceNode ((updateStroke s r1).currentTime + 0.22)
              ∈ (updateStroke (updateStroke s r1) r2).events
          ∧ AudioEvent.onEndedDisconnect [old.sourceNode, old.gainNode, old.pannerNode]
              ∈ (updateStroke (updateStroke s r1) r2).events
          ∧ AudioEvent.setLoop fresh.sourceNode true
              ∈ (updateStroke (updateStroke s r1) r2).events
          ∧ AudioEvent.setRateValue fresh.sourceNode 0.92
              ∈ (updateStroke (updateStroke s r1) r2).events
          ∧ AudioEvent.setGainValue fresh.gainNode 0.0001
              ∈ (updateStroke (updateStroke s r1) r2).events
          ∧ AudioEvent.startSource fresh.sourceNode
                ((updateStroke s r1).currentTime + 0.003)
              ∈ (updateStroke (updateStroke s r1) r2).events := by
  constructor
  · intro ops
    rcases h : (run initialEngine ops).activeStrokeSession <;>
      simp [strokeSessionCount, h]
  intro s r1 r2 hne
  obtain ⟨h1a, h1b, h1c, h1d⟩ := updateStroke_active_session s r1
  have hEC : ensureContext (updateStroke s r1) = updateStroke s r1 :=
    ensureContext_of_initialized _ h1c
  have hnold : (getOrCreateStrokeSession (ensureContext s) r1.sound).1.soundId ≠ r2.sound.id := by
    rw [h1b]
    exact hne
  have hgs : getOrCreateStrokeSession (updateStroke s r1) r2.sound
      = strokeSessionCreate (endStroke (updateStroke s r1)) r2.sound := by
    rw [getOrCreateStrokeSession, h1a]
    simp [hnold]
  have hES := endStroke_some_eq (updateStroke s r1)
    (getOrCreateStrokeSession (ensureContext s) r1.sound).1 h1a h1c
  obtain ⟨hf1, hf2, hf3, hf4, hf5, hf6, hf7, hf8⟩ :=
    strokeSessionCreate_spec (endStroke (updateStroke s r1)) r2.sound
  obtain ⟨h2a, h2b, h2c, h2d⟩ := updateStroke_active_session (updateStroke s r1) r2
  have hcur : (endStroke (updateStroke s r1)).currentTime = (updateStroke s r1).currentTime :=
    (endStroke_fields _).2.1
  have hEev : (endStroke (updateStroke s r1)).events = (updateStroke s r1).events ++
      [AudioEvent.setGainTarget (getOrCreateStrokeSession (ensureContext s) r1.sound).1.gainNode
         0.0001 (updateStroke s r1).currentTime 0.05,
       AudioEvent.stopSource (getOrCreateStrokeSession (ensureContext s) r1.sound).1.sourceNode
         ((updateStroke s r1).currentTime + 0.22),
       AudioEvent.onEndedDisconnect
         [(getOrCreateStrokeSession (ensureContext s) r1.sound).1.sourceNode,
          (getOrCreateStrokeSession (ensureContext s) r1.sound).1.gainNode,
          (getOrCreateStrokeSession (ensureContext s) r1.sound).1.pannerNode]] := by
    rw [hES]
  refine ⟨(getOrCreateStrokeSession (ensureContext s) r1.sound).1,
    (getOrCreateStrokeSession (ensureContext (updateStroke s r1)) r2.sound).1,
    h1a, h1b, h2a, h2b, ?_, ?_, ?_, ?_, ?_, ?_, ?_, ?_⟩
  · simp [strokeSessionCount, h2a]
  all_goals
    simp only [updateStroke_events (updateStroke s r1) r2, hEC, hgs, hf3, hf4, hf8, hEev, hcur,
      applyPannerValues, List.append_assoc, List.mem_append, List.mem_cons]
  all_goals simp

theorem C5_stroke_session_exclusive_witness :
    ∃ old fresh : StrokeSessionState,
      (updateStroke initialEngine
        ⟨⟨"brush-a", SoundCategory.brushing, 0.4, 1.1, false, 51, none⟩,
         ⟨0, 0, 0⟩, 1, GestureType.drag, 100⟩).activeStrokeSession = some old
      ∧ old.soundId = "brush-a"
      ∧ (updateStroke (updateStroke initialEngine
          ⟨⟨"brush-a", SoundCategory.brushing, 0.4, 1.1, false, 51, none⟩,
           ⟨0, 0, 0⟩, 1, GestureType.drag, 100⟩)
          ⟨⟨"water-b", SoundCategory.water, 0.5, 0.8, false, 67, none⟩,
           ⟨0, 0, 0⟩, 1, GestureType.drag, 200⟩).activeStrokeSession = some fresh
      ∧ fresh.soundId = "water-b"
      ∧ strokeSessionCount (updateStroke (updateStroke initialEngine
          ⟨⟨"brush-a", SoundCategory.brushing, 0.4, 1.1, false, 51, none⟩,
           ⟨0, 0, 0⟩, 1, GestureType.drag, 100⟩)
          ⟨⟨"water-b", SoundCategory.water, 0.5, 0.8, false, 67, none⟩,
           ⟨0, 0, 0⟩, 1, GestureType.drag, 200⟩) = 1
      ∧ AudioEvent.setGainTarget old.gainNode 0.0001
          (updateStroke initialEngine
            ⟨⟨"brush-a", SoundCategory.brushing, 0.4, 1.1, false, 51, none⟩,
             ⟨0, 0, 0⟩, 1, GestureType.drag, 100⟩).currentTime 0.05
          ∈ (updateStroke (updateStroke initialEngine
              ⟨⟨"brush-a", SoundCategory.brushing, 0.4, 1.1, false, 51, none⟩,
               ⟨0, 0, 0⟩, 1, GestureType.drag, 100⟩)
              ⟨⟨"water-b", SoundCategory.water, 0.5, 0.8, false, 67, none⟩,
               ⟨0, 0, 0⟩, 1, GestureType.drag, 200⟩).events
      ∧ AudioEvent.stopSource old.sourceNode
          ((updateStroke initialEngine
            ⟨⟨"brush-a", SoundCategory.brushing, 0.4, 1.1, false, 51, none⟩,
             ⟨0, 0, 0⟩, 1, GestureType.drag, 100⟩).currentTime + 0.22)
          ∈ (updateStroke (updateStroke initialEngine
              ⟨⟨"brush-a", SoundCategory.brushing, 0.4, 1.1, false, 51, none⟩,
               ⟨0, 0, 0⟩, 1, GestureType.drag, 100⟩)
              ⟨⟨"water-b", SoundCategory.water, 0.5, 0.8, false, 67, none⟩,
               ⟨0, 0, 0⟩, 1, GestureType.drag, 200⟩).events
      ∧ AudioEvent.onEndedDisconnect [old.sourceNode, old.gainNode, old.pannerNode]
          ∈ (updateStroke (updateStroke initialEngine
              ⟨⟨"brush-a", SoundCategory.brushing, 0.4, 1.1, false, 51, none⟩,
               ⟨0, 0, 0⟩, 1, GestureType.drag, 100⟩)
              ⟨⟨"water-b", SoundCategory.water, 0.5, 0.8, false, 67, none⟩,
               ⟨0, 0, 0⟩, 1, GestureType.drag, 200⟩).events
      ∧ AudioEvent.setLoop fresh.sourceNode true
          ∈ (updateStroke (updateStroke initialEngine
              ⟨⟨"brush-a", SoundCategory.brushing, 0.4, 1.1, false, 51, none⟩,
               ⟨0, 0, 0⟩, 1, GestureType.drag, 100⟩)
              ⟨⟨"water-b", SoundCategory.water, 0.5, 0.8, false, 67, none⟩,
               ⟨0, 0, 0⟩, 1, GestureType.drag, 200⟩).events
      ∧ AudioEvent.setRateValue fresh.sourceNode 0.92
          ∈ (updateStroke (updateStroke initialEngine
              ⟨⟨"brush-a", SoundCategory.brushing, 0.4, 1.1, false, 51, none⟩,
               ⟨0, 0, 0⟩, 1, GestureType.drag, 100⟩)
              ⟨⟨"water-b", SoundCategory.water, 0.5, 0.8, false, 67, none⟩,
               ⟨0, 0, 0⟩, 1, GestureType.drag, 200⟩).events
      ∧ AudioEvent.setGainValue fresh.gainNode 0.0001
          ∈ (updateStroke (updateStroke initialEngine
              ⟨⟨"brush-a", SoundCategory.brushing, 0.4, 1.1, false, 51, none⟩,
               ⟨0, 0, 0⟩, 1, GestureType.drag, 100⟩)
              ⟨⟨"water-b", SoundCategory.water, 0.5, 0.8, false, 67, none⟩,
               ⟨0, 0, 0⟩, 1, GestureType.drag, 200⟩).events
      ∧ AudioEvent.startSource fresh.sourceNode
          ((updateStroke initialEngine
            ⟨⟨"brush-a", SoundCategory.brushing, 0.4, 1.1, false, 51, none⟩,
             ⟨0, 0, 0⟩, 1, GestureType.drag, 100⟩).currentTime + 0.003)
          ∈ (updateStroke (updateStroke initialEngine
              ⟨⟨"brush-a", SoundCategory.brushing, 0.4, 1.1, false, 51, none⟩,
               ⟨0, 0, 0⟩, 1, GestureType.drag, 100⟩)
              ⟨⟨"water-b", SoundCategory.water, 0.5, 0.8, false, 67, none⟩,
               ⟨0, 0, 0⟩, 1, GestureType.drag, 200⟩).events :=
  C5_stroke_session_exclusive.2 initialEngine
    ⟨⟨"brush-a", SoundCategory.brushing, 0.4, 1.1, false, 51, none⟩,
     ⟨0, 0, 0⟩, 1, GestureType.drag, 100⟩
    ⟨⟨"water-b", SoundCategory.water, 0.5, 0.8, false, 67, none⟩,
     ⟨0, 0, 0⟩, 1, GestureType.drag, 200⟩
    (by simp)

end Asmr
